import Mathlib

/-!
Verification of the pytree polyfill (torch/_dynamo/polyfills/pytree.py):
tree_iter, tree_leaves, tree_flatten, tree_structure, PyTreeSpec and
tree_unflatten, shallowly embedded over a universe of Python values.

The container registry is modelled as an injected capability, as the code
treats it: a predicate on runtime type tags saying whether the type has a
registered decomposition in the torch namespace.  A registered container
value carries its type tag, its opaque metadata and its ordered children;
the decomposition returned by optree.tree_flatten_one_level is then
(children, metadata, positional entries, reconstruction function), where the
reconstruction function rebuilds a container of the same type from metadata
and a child list, which is the registry contract the code relies on.
-/

namespace PytreePolyfill

/-- A Python value as seen by the pytree code: the none value, an opaque
atom of an unregistered non-container type, or a container value carrying a
runtime type tag, opaque metadata (for a mapping, its key order) and an
ordered list of children. -/
inductive PyObj : Type where
  | none : PyObj
  | atom : Nat → PyObj
  | node : Nat → Nat → List PyObj → PyObj

mutual

/-- Number of values in a tree, a termination measure. -/
def PyObj.size : PyObj → Nat
  | PyObj.none => 1
  | PyObj.atom _ => 1
  | PyObj.node _ _ cs => 1 + sizeList cs

/-- Total size of a list of trees. -/
def sizeList : List PyObj → Nat
  | [] => 0
  | t :: ts => PyObj.size t + sizeList ts

end

/-- The children a registered container exposes to the traversal; empty for
non-container values. -/
def PyObj.childList : PyObj → List PyObj
  | PyObj.none => []
  | PyObj.atom _ => []
  | PyObj.node _ _ cs => cs

theorem sizeList_append (a b : List PyObj) :
    sizeList (a ++ b) = sizeList a + sizeList b := by
  induction a with
  | nil => simp [sizeList]
  | cons t ts ih => simp [sizeList, ih]; omega

theorem PyObj.size_pos (t : PyObj) : 1 ≤ PyObj.size t := by
  cases t <;> simp [PyObj.size]

theorem sizeList_childList_lt (t : PyObj) :
    sizeList (PyObj.childList t) < PyObj.size t := by
  cases t <;> simp [PyObj.childList, PyObj.size, sizeList]

theorem sizeList_tail_lt (x : PyObj) (rest : List PyObj) :
    sizeList rest < sizeList (x :: rest) := by
  have := PyObj.size_pos x
  simp [sizeList]; omega

theorem sizeList_childStack_lt (x : PyObj) (rest : List PyObj) :
    sizeList (PyObj.childList x ++ rest) < sizeList (x :: rest) := by
  have := sizeList_childList_lt x
  simp [sizeList_append, sizeList]; omega

/-- Evaluation of the optional leaf predicate: in the source,
`is_leaf is not None and is_leaf(curr)`. -/
def predHolds (P : Option (PyObj → Bool)) (x : PyObj) : Bool :=
  match P with
  | Option.none => false
  | Option.some p => p x

/-- Registry lookup, `optree.register_pytree_node.get(type(curr),
namespace=torch) is not None`: only a container value whose type tag the
registry `reg` covers has a decomposition. -/
def hasDecomp (reg : Nat → Bool) : PyObj → Bool
  | PyObj.none => false
  | PyObj.atom _ => false
  | PyObj.node ty _ _ => reg ty

/-- The combined leaf test both walkers perform on a value, in source order:
the value is the none value, or the supplied predicate flags it, or the
registry has no decomposition for its type. -/
def isLeafValue (reg : Nat → Bool) (P : Option (PyObj → Bool)) (x : PyObj) : Bool :=
  (match x with | PyObj.none => true | _ => false)
    || predHolds P x
    || !(hasDecomp reg x)

/-- The loop of tree_iter: an explicit stack, popping the current value,
yielding it when the leaf test holds, otherwise pushing the children of its
one-level decomposition in reverse so they pop left to right.  The stack
top is the list head here, so pushing reversed children onto an end-popping
Python list is prepending the children in order. -/
def treeIterAux (reg : Nat → Bool) (P : Option (PyObj → Bool))
    (stack : List PyObj) : List PyObj :=
  match stack with
  | [] => []
  | curr :: rest =>
    if isLeafValue reg P curr then
      curr :: treeIterAux reg P rest
    else
      treeIterAux reg P (PyObj.childList curr ++ rest)
termination_by sizeList stack
decreasing_by
  all_goals first
    | apply sizeList_tail_lt
    | apply sizeList_childStack_lt

/-- tree_iter: the lazy walker, materialized as the list of values it
yields. -/
def tree_iter (reg : Nat → Bool) (P : Option (PyObj → Bool)) (tree : PyObj) :
    List PyObj :=
  treeIterAux reg P [tree]

/-- tree_leaves: `list(tree_iter(tree, is_leaf=is_leaf))`. -/
def tree_leaves (reg : Nat → Bool) (P : Option (PyObj → Bool)) (tree : PyObj) :
    List PyObj :=
  tree_iter reg P tree

/-- The PyTreeSpec dataclass.  The post-init asserts force exactly two
shapes: a leaf spec (`_type` is None, and then `_children`, `_metadata`,
`_entries` and `_unflatten_func` are all None or empty — the only such value
the code builds is `leafspec = PyTreeSpec([], None, None, None, None)`), and
an internal spec carrying a type tag, metadata, the entries tuple and the
ordered child specs.  The stored `_unflatten_func` of an internal spec is
the registry reconstruction function for its type tag: it rebuilds
`PyObj.node ty metadata subtrees` from metadata and a child list. -/
inductive PyTreeSpec : Type where
  | leaf : PyTreeSpec
  | node : Nat → Nat → List Nat → List PyTreeSpec → PyTreeSpec

mutual

/-- num_nodes, computed in post-init:
`sum((spec.num_nodes for spec in self._children), start=1)` for an internal
spec, 1 for a leaf spec. -/
def PyTreeSpec.num_nodes : PyTreeSpec → Nat
  | PyTreeSpec.leaf => 1
  | PyTreeSpec.node _ _ _ cs => 1 + numNodesList cs

/-- Sum of num_nodes over a child list. -/
def numNodesList : List PyTreeSpec → Nat
  | [] => 0
  | c :: cs => PyTreeSpec.num_nodes c + numNodesList cs

end

mutual

/-- num_leaves, computed in post-init:
`sum(spec.num_leaves for spec in self._children)` for an internal spec, 1
for a leaf spec. -/
def PyTreeSpec.num_leaves : PyTreeSpec → Nat
  | PyTreeSpec.leaf => 1
  | PyTreeSpec.node _ _ _ cs => numLeavesList cs

/-- Sum of num_leaves over a child list. -/
def numLeavesList : List PyTreeSpec → Nat
  | [] => 0
  | c :: cs => PyTreeSpec.num_leaves c + numLeavesList cs

end

/-- num_children, computed in post-init: `len(self._children)`. -/
def PyTreeSpec.num_children : PyTreeSpec → Nat
  | PyTreeSpec.leaf => 0
  | PyTreeSpec.node _ _ _ cs => cs.length

/-- is_leaf: `self.num_nodes == 1 and self.num_leaves == 1`, the structural
test the source uses rather than checking the node type field. -/
def PyTreeSpec.is_leaf (s : PyTreeSpec) : Bool :=
  s.num_nodes == 1 && s.num_leaves == 1

/-- The canonical leaf spec singleton,
`leafspec = PyTreeSpec([], None, None, None, None)`. -/
def leafspec : PyTreeSpec := PyTreeSpec.leaf

mutual

/-- A rendering of a spec, standing in for the dataclass repr interpolated
into the length-mismatch message. -/
def PyTreeSpec.render : PyTreeSpec → String
  | PyTreeSpec.leaf => "*"
  | PyTreeSpec.node ty m _ cs =>
      "PyTreeSpec(type=" ++ toString ty ++ ", metadata=" ++ toString m
        ++ ", children=[" ++ renderList cs ++ "])"

/-- Renders a child-spec list, comma separated. -/
def renderList : List PyTreeSpec → String
  | [] => ""
  | [c] => PyTreeSpec.render c
  | c :: cs => PyTreeSpec.render c ++ ", " ++ renderList cs

end

/-- entries(): `list(self._entries)`.  On a leaf spec `_entries` is None and
iterating None raises a TypeError; on an internal spec the entries tuple is
returned as a list. -/
def PyTreeSpec.entries : PyTreeSpec → Except String (List Nat)
  | PyTreeSpec.leaf => Except.error "TypeError: NoneType object is not iterable"
  | PyTreeSpec.node _ _ es _ => Except.ok es

/-- entry(index): `self._entries[index]`.  On a leaf spec `_entries` is None
and subscripting None raises a TypeError; on an internal spec tuple indexing
returns the identifier or raises IndexError out of range. -/
def PyTreeSpec.entry : PyTreeSpec → Nat → Except String Nat
  | PyTreeSpec.leaf, _ =>
      Except.error "TypeError: NoneType object is not subscriptable"
  | PyTreeSpec.node _ _ es _, i =>
      match es[i]? with
      | Option.some e => Except.ok e
      | Option.none => Except.error "IndexError: tuple index out of range"

/-- children(): `list(self._children)`. -/
def PyTreeSpec.childSpecs : PyTreeSpec → List PyTreeSpec
  | PyTreeSpec.leaf => []
  | PyTreeSpec.node _ _ _ cs => cs

/-- The ValueError message raised by unflatten on a leaf-count mismatch,
reporting the supplied length, the expected count and the spec. -/
def lengthMismatchMsg (got expected : Nat) (s : PyTreeSpec) : String :=
  "treespec.unflatten(leaves): leaves has length " ++ toString got
    ++ " but the spec refers to a pytree that holds " ++ toString expected
    ++ " items (" ++ PyTreeSpec.render s ++ ")."

mutual

/-- unflatten(self, leaves): materialize the leaves, raise ValueError when
the length differs from num_leaves, return the single leaf directly when
is_leaf(), otherwise cut the leaf list into contiguous runs of the children
leaf counts (the running start/end offsets of the source loop are the
iterated take and drop here), unflatten each run against the matching child
spec, and rebuild the container with the stored reconstruction function
applied to the metadata and the subtrees.  The two error branches past the
length check are unreachable for specs the code constructs: a leaf spec
always satisfies is_leaf(), and reaching the assert with a None
reconstruction function would mean a leaf spec failed it. -/
def PyTreeSpec.unflatten (s : PyTreeSpec) (leaves : List PyObj) :
    Except String PyObj :=
  if leaves.length ≠ s.num_leaves then
    Except.error (lengthMismatchMsg leaves.length s.num_leaves s)
  else if s.is_leaf then
    match leaves with
    | x :: _ => Except.ok x
    | [] => Except.error "IndexError: list index out of range"
  else
    match s with
    | PyTreeSpec.leaf => Except.error "AssertionError"
    | PyTreeSpec.node ty m _ cs =>
        match unflattenChildren cs leaves with
        | Except.error e => Except.error e
        | Except.ok subtrees => Except.ok (PyObj.node ty m subtrees)
/-- The child loop of unflatten: child i consumes the run
`leaves[start:end]` with `end - start = children[i].num_leaves`; any leaves
past the total child demand are ignored by the loop itself (the top-level
length check already rules that out). -/
def unflattenChildren (cs : List PyTreeSpec) (leaves : List PyObj) :
    Except String (List PyObj) :=
  match cs with
  | [] => Except.ok []
  | c :: rest =>
      match PyTreeSpec.unflatten c (leaves.take c.num_leaves) with
      | Except.error e => Except.error e
      | Except.ok t =>
          match unflattenChildren rest (leaves.drop c.num_leaves) with
          | Except.error e => Except.error e
          | Except.ok ts => Except.ok (t :: ts)
end

mutual

/-- The recursive helper of tree_flatten.  The source appends leaves to one
shared list by side effect; here the helper returns the leaves the subtree
contributes, in the same append order, together with the subtree spec.
When the leaf test holds the node joins the leaf list and the canonical
leaf spec is returned; otherwise the one-level decomposition yields the
children, metadata, positional entries and the reconstruction function for
the type tag, each child is processed in order, and an internal spec is
assembled from the child specs.  The fallthrough branch is unreachable: a
value that is not a registered container always passes the leaf test. -/
def flattenHelper (reg : Nat → Bool) (P : Option (PyObj → Bool)) (t : PyObj) :
    List PyObj × PyTreeSpec :=
  if isLeafValue reg P t then
    ([t], leafspec)
  else
    match t with
    | PyObj.node ty m cs =>
        let r := flattenChildren reg P cs
        (r.1, PyTreeSpec.node ty m (List.range cs.length) r.2)
    | other => ([other], leafspec)
/-- Processes the children of a decomposed node in order: the leaf lists
concatenate left to right, matching the shared-list append order of the
source, and the child specs are collected in order. -/
def flattenChildren (reg : Nat → Bool) (P : Option (PyObj → Bool))
    (cs : List PyObj) : List PyObj × List PyTreeSpec :=
  match cs with
  | [] => ([], [])
  | c :: rest =>
      let rc := flattenHelper reg P c
      let rr := flattenChildren reg P rest
      (rc.1 ++ rr.1, rc.2 :: rr.2)
end

/-- tree_flatten: run the recursive helper on the root with an empty leaf
list and return the collected leaves with the spec. -/
def tree_flatten (reg : Nat → Bool) (P : Option (PyObj → Bool)) (tree : PyObj) :
    List PyObj × PyTreeSpec :=
  flattenHelper reg P tree

/-- tree_structure: `tree_flatten(tree, is_leaf=is_leaf)[1]`. -/
def tree_structure (reg : Nat → Bool) (P : Option (PyObj → Bool))
    (tree : PyObj) : PyTreeSpec :=
  (tree_flatten reg P tree).2

/-- A value passed as the second argument of tree_unflatten: either a
PyTreeSpec instance or any other Python value. -/
inductive PyAny : Type where
  | spec : PyTreeSpec → PyAny
  | obj : PyObj → PyAny

/-- The runtime type name rendered into the tree_unflatten TypeError. -/
def PyAny.typeName : PyAny → String
  | PyAny.spec _ => "PyTreeSpec"
  | PyAny.obj PyObj.none => "NoneType"
  | PyAny.obj (PyObj.atom _) => "object"
  | PyAny.obj (PyObj.node ty _ _) => "type" ++ toString ty

/-- The TypeError message raised by tree_unflatten on a non-spec second
argument. -/
def typeMismatchMsg (v : PyAny) : String :=
  "tree_unflatten(values, spec): Expected spec to be instance of TreeSpec but got item of type "
    ++ PyAny.typeName v ++ "."

/-- tree_unflatten(leaves, treespec): raise TypeError unless the second
argument is a PyTreeSpec instance, before touching the leaves; otherwise
delegate to treespec.unflatten(leaves). -/
def tree_unflatten (leaves : List PyObj) (treespec : PyAny) :
    Except String PyObj :=
  match treespec with
  | PyAny.spec s => PyTreeSpec.unflatten s leaves
  | PyAny.obj _ => Except.error (typeMismatchMsg treespec)

theorem numNodesList_eq_sum (cs : List PyTreeSpec) :
    numNodesList cs = (cs.map PyTreeSpec.num_nodes).sum := by
  induction cs with
  | nil => simp [numNodesList]
  | cons c rest ih => simp [numNodesList, ih]

theorem numLeavesList_eq_sum (cs : List PyTreeSpec) :
    numLeavesList cs = (cs.map PyTreeSpec.num_leaves).sum := by
  induction cs with
  | nil => simp [numLeavesList]
  | cons c rest ih => simp [numLeavesList, ih]

theorem num_nodes_pos (s : PyTreeSpec) : 1 ≤ s.num_nodes := by
  cases s <;> simp [PyTreeSpec.num_nodes]

theorem numNodesList_eq_zero (cs : List PyTreeSpec) (h : numNodesList cs = 0) :
    cs = [] := by
  cases cs with
  | nil => rfl
  | cons c rest =>
      exfalso
      have := num_nodes_pos c
      simp [numNodesList] at h
      omega

theorem is_leaf_iff_eq_leaf (s : PyTreeSpec) :
    s.is_leaf = true ↔ s = PyTreeSpec.leaf := by
  cases s with
  | leaf => simp [PyTreeSpec.is_leaf, PyTreeSpec.num_nodes, PyTreeSpec.num_leaves]
  | node ty m es cs =>
      simp only [PyTreeSpec.is_leaf, PyTreeSpec.num_nodes, PyTreeSpec.num_leaves]
      constructor
      · intro h
        simp only [Bool.and_eq_true, beq_iff_eq] at h
        obtain ⟨h1, h2⟩ := h
        have hcs : cs = [] := numNodesList_eq_zero cs (by omega)
        subst hcs
        simp [numLeavesList] at h2
      · intro h
        simp at h

theorem is_leaf_node (ty m : Nat) (es : List Nat) (cs : List PyTreeSpec) :
    (PyTreeSpec.node ty m es cs).is_leaf = false := by
  cases hb : (PyTreeSpec.node ty m es cs).is_leaf with
  | false => rfl
  | true => exact absurd ((is_leaf_iff_eq_leaf _).mp hb) (by simp)

theorem isLeafValue_none (reg : Nat → Bool) (P : Option (PyObj → Bool)) :
    isLeafValue reg P PyObj.none = true := by
  simp [isLeafValue]

theorem isLeafValue_atom (reg : Nat → Bool) (P : Option (PyObj → Bool))
    (v : Nat) : isLeafValue reg P (PyObj.atom v) = true := by
  simp [isLeafValue, hasDecomp]

theorem flattenChildren_fst (reg : Nat → Bool) (P : Option (PyObj → Bool))
    (cs : List PyObj) :
    (flattenChildren reg P cs).1
      = (cs.map fun c => (flattenHelper reg P c).1).flatten := by
  induction cs with
  | nil => simp [flattenChildren]
  | cons c rest ih => simp [flattenChildren, ih]

mutual

theorem flattenHelper_num_leaves (reg : Nat → Bool) (P : Option (PyObj → Bool))
    (t : PyObj) :
    ((flattenHelper reg P t).2).num_leaves = (flattenHelper reg P t).1.length := by
  rw [flattenHelper.eq_def]
  by_cases h : isLeafValue reg P t = true
  · simp [h, leafspec, PyTreeSpec.num_leaves]
  · cases t with
    | none => exact absurd (isLeafValue_none reg P) h
    | atom v => exact absurd (isLeafValue_atom reg P v) h
    | node ty m cs =>
        simp [h, PyTreeSpec.num_leaves,
          flattenChildren_num_leaves reg P cs]

theorem flattenChildren_num_leaves (reg : Nat → Bool)
    (P : Option (PyObj → Bool)) (cs : List PyObj) :
    numLeavesList (flattenChildren reg P cs).2
      = (flattenChildren reg P cs).1.length := by
  cases cs with
  | nil => simp [flattenChildren, numLeavesList]
  | cons c rest =>
      simp [flattenChildren, numLeavesList,
        flattenHelper_num_leaves reg P c, flattenChildren_num_leaves reg P rest]

end

theorem treeIterAux_flatten (reg : Nat → Bool) (P : Option (PyObj → Bool))
    (stack : List PyObj) :
    treeIterAux reg P stack
      = (stack.map fun t => (flattenHelper reg P t).1).flatten := by
  match stack with
  | [] => rw [treeIterAux]; simp
  | curr :: rest =>
      rw [treeIterAux]
      by_cases h : isLeafValue reg P curr = true
      · rw [if_pos h, treeIterAux_flatten reg P rest]
        have hc : (flattenHelper reg P curr).1 = [curr] := by
          rw [flattenHelper.eq_def]; simp [h]
        simp [hc]
      · rw [if_neg h, treeIterAux_flatten reg P (PyObj.childList curr ++ rest)]
        cases curr with
        | none => exact absurd (isLeafValue_none reg P) h
        | atom v => exact absurd (isLeafValue_atom reg P v) h
        | node ty m cs =>
            have hc : (flattenHelper reg P (PyObj.node ty m cs)).1
                = (cs.map fun c => (flattenHelper reg P c).1).flatten := by
              rw [flattenHelper.eq_def]; simp [h, flattenChildren_fst]
            simp [PyObj.childList, hc]
termination_by sizeList stack
decreasing_by
  all_goals first
    | apply sizeList_tail_lt
    | apply sizeList_childStack_lt

mutual

theorem flattenHelper_unflatten (reg : Nat → Bool) (P : Option (PyObj → Bool))
    (t : PyObj) :
    PyTreeSpec.unflatten (flattenHelper reg P t).2 (flattenHelper reg P t).1
      = Except.ok t := by
  by_cases h : isLeafValue reg P t = true
  · have hf : flattenHelper reg P t = ([t], leafspec) := by
      rw [flattenHelper.eq_def]; simp [h]
    rw [hf]
    rw [PyTreeSpec.unflatten.eq_def]
    simp [leafspec, PyTreeSpec.num_leaves, PyTreeSpec.is_leaf, PyTreeSpec.num_nodes]
  · cases t with
    | none => exact absurd (isLeafValue_none reg P) h
    | atom v => exact absurd (isLeafValue_atom reg P v) h
    | node ty m cs =>
        have hf : flattenHelper reg P (PyObj.node ty m cs)
            = ((flattenChildren reg P cs).1,
                PyTreeSpec.node ty m (List.range cs.length)
                  (flattenChildren reg P cs).2) := by
          rw [flattenHelper.eq_def]; simp [h]
        have hchild := flattenChildren_unflatten reg P cs []
        rw [List.append_nil] at hchild
        have hlen : (flattenChildren reg P cs).1.length
            = numLeavesList (flattenChildren reg P cs).2 :=
          (flattenChildren_num_leaves reg P cs).symm
        rw [hf, PyTreeSpec.unflatten.eq_def]
        simp [PyTreeSpec.num_leaves, hlen, is_leaf_node, hchild]

theorem flattenChildren_unflatten (reg : Nat → Bool) (P : Option (PyObj → Bool))
    (cs : List PyObj) (extra : List PyObj) :
    unflattenChildren (flattenChildren reg P cs).2
        ((flattenChildren reg P cs).1 ++ extra)
      = Except.ok cs := by
  cases cs with
  | nil => simp [flattenChildren, unflattenChildren]
  | cons c rest =>
      have hc := flattenHelper_unflatten reg P c
      have hrest := flattenChildren_unflatten reg P rest extra
      have hlen : ((flattenHelper reg P c).2).num_leaves
          = (flattenHelper reg P c).1.length :=
        flattenHelper_num_leaves reg P c
      simp only [flattenChildren, unflattenChildren, List.append_assoc, hlen,
        List.take_left, List.drop_left, hc, hrest]

end

mutual

theorem unflatten_ok_of_length (s : PyTreeSpec) (l : List PyObj)
    (h : l.length = s.num_leaves) :
    ∃ t, PyTreeSpec.unflatten s l = Except.ok t := by
  cases s with
  | leaf =>
      cases l with
      | nil => simp [PyTreeSpec.num_leaves] at h
      | cons x xs =>
          cases xs with
          | nil =>
              refine ⟨x, ?_⟩
              rw [PyTreeSpec.unflatten.eq_def]
              simp [PyTreeSpec.num_leaves, PyTreeSpec.is_leaf, PyTreeSpec.num_nodes]
          | cons y ys => simp [PyTreeSpec.num_leaves] at h
  | node ty m es cs =>
      have hl : l.length = numLeavesList cs := by
        simpa [PyTreeSpec.num_leaves] using h
      obtain ⟨ts, hts⟩ := unflattenChildren_ok cs l hl
      refine ⟨PyObj.node ty m ts, ?_⟩
      rw [PyTreeSpec.unflatten.eq_def]
      simp [PyTreeSpec.num_leaves, hl, is_leaf_node, hts]

theorem unflattenChildren_ok (cs : List PyTreeSpec) (l : List PyObj)
    (h : l.length = numLeavesList cs) :
    ∃ ts, unflattenChildren cs l = Except.ok ts := by
  cases cs with
  | nil => exact ⟨[], by simp [unflattenChildren]⟩
  | cons c rest =>
      simp only [numLeavesList] at h
      have h1 : (l.take c.num_leaves).length = c.num_leaves := by
        simp [List.length_take]; omega
      obtain ⟨t, ht⟩ := unflatten_ok_of_length c (l.take c.num_leaves) h1
      have h2 : (l.drop c.num_leaves).length = numLeavesList rest := by
        simp [List.length_drop]; omega
      obtain ⟨ts, hts⟩ := unflattenChildren_ok rest (l.drop c.num_leaves) h2
      exact ⟨t :: ts, by simp [unflattenChildren, ht, hts]⟩

end

theorem unflatten_error_of_length (s : PyTreeSpec) (l : List PyObj)
    (h : l.length ≠ s.num_leaves) :
    PyTreeSpec.unflatten s l
      = Except.error (lengthMismatchMsg l.length s.num_leaves s) := by
  rw [PyTreeSpec.unflatten.eq_def, if_pos h]

/-- The contiguous runs the unflatten child loop consumes: run i is
`leaves[start:end]`, so its length is the num_leaves of child i, written
with the iterated take and drop that realize the running offsets. -/
def childRuns : List PyTreeSpec → List PyObj → List (List PyObj)
  | [], _ => []
  | c :: rest, l => l.take c.num_leaves :: childRuns rest (l.drop c.num_leaves)

theorem childRuns_partition (cs : List PyTreeSpec) (l : List PyObj)
    (h : l.length = numLeavesList cs) :
    (childRuns cs l).flatten = l ∧
      (childRuns cs l).map List.length = cs.map PyTreeSpec.num_leaves := by
  induction cs generalizing l with
  | nil =>
      cases l with
      | nil => simp [childRuns]
      | cons x xs => simp [numLeavesList] at h
  | cons c rest ih =>
      simp only [numLeavesList] at h
      have h1 : (l.take c.num_leaves).length = c.num_leaves := by
        simp [List.length_take]; omega
      have h2 : (l.drop c.num_leaves).length = numLeavesList rest := by
        simp [List.length_drop]; omega
      obtain ⟨ih1, ih2⟩ := ih (l.drop c.num_leaves) h2
      constructor
      · simp [childRuns, ih1, List.take_append_drop]
      · simp [childRuns, ih2, h1]

/-- C1: For every registry, every optional leaf predicate and every finite
tree, tree_unflatten applied to the leaf list and the PyTreeSpec returned by
tree_flatten reconstructs the original tree exactly: same container types,
same metadata (hence keys and order), and every leaf value back in the
position it was taken from. -/
theorem tree_flatten_tree_unflatten_roundtrip (reg : Nat → Bool)
    (P : Option (PyObj → Bool)) (T : PyObj) :
    tree_unflatten (tree_flatten reg P T).1 (PyAny.spec (tree_flatten reg P T).2)
      = Except.ok T := by
  simpa [tree_unflatten, tree_flatten] using flattenHelper_unflatten reg P T

/-- C2: For every registry, every optional leaf predicate and every finite
tree, the leaf list produced by the iterative stack-based walker
(tree_leaves, the materialization of tree_iter) equals element for element
the leaf list produced by the recursive tree_flatten: both traversals yield
the leaves in the same depth-first left-to-right order. -/
theorem tree_leaves_eq_flatten_leaves (reg : Nat → Bool)
    (P : Option (PyObj → Bool)) (T : PyObj) :
    tree_leaves reg P T = (tree_flatten reg P T).1 := by
  rw [tree_leaves, tree_iter, treeIterAux_flatten]
  simp [tree_flatten]

/-- C3: Every constructible PyTreeSpec satisfies the count invariants: the
leaf spec has num_nodes = 1, num_leaves = 1, num_children = 0; an internal
spec has num_nodes = 1 + sum of child num_nodes, num_leaves = sum of child
num_leaves, num_children = number of children; and whenever a leaf list has
length equal to the sum of the child leaf counts, the contiguous runs the
unflatten loop consumes (run i of length children[i].num_leaves) partition
it exactly, with no gaps or overlaps. -/
theorem pyTreeSpec_count_invariants :
    (∀ (ty m : Nat) (es : List Nat) (cs : List PyTreeSpec),
        (PyTreeSpec.node ty m es cs).num_nodes
            = 1 + (cs.map PyTreeSpec.num_nodes).sum
          ∧ (PyTreeSpec.node ty m es cs).num_leaves
            = (cs.map PyTreeSpec.num_leaves).sum
          ∧ (PyTreeSpec.node ty m es cs).num_children = cs.length)
      ∧ (PyTreeSpec.leaf.num_nodes = 1 ∧ PyTreeSpec.leaf.num_leaves = 1
          ∧ PyTreeSpec.leaf.num_children = 0)
      ∧ (∀ (cs : List PyTreeSpec) (l : List PyObj),
          l.length = (cs.map PyTreeSpec.num_leaves).sum →
            (childRuns cs l).flatten = l
              ∧ (childRuns cs l).map List.length
                = cs.map PyTreeSpec.num_leaves) := by
  refine ⟨?_, ⟨rfl, rfl, rfl⟩, ?_⟩
  · intro ty m es cs
    exact ⟨by simp [PyTreeSpec.num_nodes, numNodesList_eq_sum],
      by simp [PyTreeSpec.num_leaves, numLeavesList_eq_sum], rfl⟩
  · intro cs l h
    exact childRuns_partition cs l (by rw [numLeavesList_eq_sum]; exact h)

theorem pyTreeSpec_count_invariants_witness :
    (childRuns [PyTreeSpec.leaf] [PyObj.atom 0]).flatten = [PyObj.atom 0] :=
  (pyTreeSpec_count_invariants.2.2 [PyTreeSpec.leaf] [PyObj.atom 0] rfl).1

/-- C4: unflatten fails with the length-mismatch ValueError exactly when the
materialized leaves differ in length from num_leaves, the error reporting
the supplied count, the expected count and a rendering of the spec; when
the lengths agree no error is raised at any recursion depth and a tree is
returned. -/
theorem unflatten_length_mismatch (s : PyTreeSpec) (leaves : List PyObj) :
    (leaves.length ≠ s.num_leaves →
        PyTreeSpec.unflatten s leaves
          = Except.error (lengthMismatchMsg leaves.length s.num_leaves s))
      ∧ (leaves.length = s.num_leaves →
        ∃ t, PyTreeSpec.unflatten s leaves = Except.ok t) :=
  ⟨unflatten_error_of_length s leaves, unflatten_ok_of_length s leaves⟩

theorem unflatten_length_mismatch_witness :
    PyTreeSpec.unflatten PyTreeSpec.leaf []
        = Except.error (lengthMismatchMsg 0 1 PyTreeSpec.leaf)
      ∧ ∃ t, PyTreeSpec.unflatten PyTreeSpec.leaf [PyObj.none] = Except.ok t :=
  ⟨(unflatten_length_mismatch PyTreeSpec.leaf []).1 (by decide),
    (unflatten_length_mismatch PyTreeSpec.leaf [PyObj.none]).2 rfl⟩

/-- C5: tree_unflatten fails with the TypeError, before any use of the
leaves, for every second argument that is not a PyTreeSpec instance, the
message depending only on the argument runtime type; and for every
PyTreeSpec second argument it returns exactly that spec unflattened on the
leaves. -/
theorem tree_unflatten_type_check :
    (∀ (leaves : List PyObj) (o : PyObj),
        tree_unflatten leaves (PyAny.obj o)
          = Except.error (typeMismatchMsg (PyAny.obj o)))
      ∧ (∀ (leaves : List PyObj) (s : PyTreeSpec),
        tree_unflatten leaves (PyAny.spec s) = PyTreeSpec.unflatten s leaves) :=
  ⟨fun _ _ => rfl, fun _ _ => rfl⟩

/-- C6: is_leaf() computes num_nodes == 1 and num_leaves == 1, holds
exactly for the canonical leaf spec (node type absent), and is false for
every spec built from a registered container decomposition, including an
internal spec with a single child and one with zero children. -/
theorem is_leaf_structural_test :
    (∀ s : PyTreeSpec, s.is_leaf = (s.num_nodes == 1 && s.num_leaves == 1))
      ∧ (∀ s : PyTreeSpec, s.is_leaf = true ↔ s = PyTreeSpec.leaf)
      ∧ (∀ (ty m : Nat) (es : List Nat) (cs : List PyTreeSpec),
        (PyTreeSpec.node ty m es cs).is_leaf = false) :=
  ⟨fun _ => rfl, is_leaf_iff_eq_leaf, is_leaf_node⟩

theorem is_leaf_structural_test_witness : PyTreeSpec.leaf.is_leaf = true :=
  (is_leaf_structural_test.2.1 PyTreeSpec.leaf).mpr rfl

/-- C7: for every value that is the none value, or is flagged by the leaf
predicate, or whose runtime type has no registered decomposition in the
torch namespace, tree_flatten returns the singleton leaf list holding the
value together with the canonical leaf spec, and tree_iter yields exactly
that one value. -/
theorem flatten_base_case (reg : Nat → Bool) (P : Option (PyObj → Bool))
    (v : PyObj)
    (h : v = PyObj.none ∨ predHolds P v = true ∨ hasDecomp reg v = false) :
    tree_flatten reg P v = ([v], leafspec) ∧ tree_iter reg P v = [v] := by
  have hl : isLeafValue reg P v = true := by
    rcases h with h | h | h
    · subst h; exact isLeafValue_none reg P
    · simp [isLeafValue, h]
    · simp [isLeafValue, h]
  constructor
  · rw [tree_flatten, flattenHelper.eq_def]; simp [hl]
  · rw [tree_iter, treeIterAux, if_pos hl, treeIterAux]

theorem flatten_base_case_witness :
    tree_flatten (fun _ => false) Option.none PyObj.none
        = ([PyObj.none], leafspec)
      ∧ tree_iter (fun _ => false) Option.none PyObj.none = [PyObj.none] :=
  flatten_base_case (fun _ => false) Option.none PyObj.none (Or.inl rfl)

/-- C8: for every spec satisfying is_leaf() and every singleton leaf list,
unflatten returns the single leaf value itself directly, with no call to
the reconstruction function; all the embedded operations are total pure
functions, so termination on every finite tree or spec holds by
construction. -/
theorem leaf_spec_unflatten_direct (s : PyTreeSpec) (h : s.is_leaf = true)
    (x : PyObj) : PyTreeSpec.unflatten s [x] = Except.ok x := by
  have hs := (is_leaf_iff_eq_leaf s).mp h
  subst hs
  rw [PyTreeSpec.unflatten.eq_def]
  simp [PyTreeSpec.num_leaves, PyTreeSpec.is_leaf, PyTreeSpec.num_nodes]

theorem leaf_spec_unflatten_direct_witness :
    PyTreeSpec.unflatten PyTreeSpec.leaf [PyObj.atom 7]
      = Except.ok (PyObj.atom 7) :=
  leaf_spec_unflatten_direct PyTreeSpec.leaf rfl (PyObj.atom 7)

/-- C9: an internal spec with zero leaves is valid and unflattening the
empty list on it succeeds: the length check passes, is_leaf() is false, the
child loop runs, and the result is the reconstruction function applied to
the metadata and the subtree list — no spec is required to hold a leaf. -/
theorem empty_internal_spec_unflatten (ty m : Nat) (es : List Nat)
    (cs : List PyTreeSpec)
    (h : (PyTreeSpec.node ty m es cs).num_leaves = 0) :
    ∃ subtrees, unflattenChildren cs [] = Except.ok subtrees
      ∧ PyTreeSpec.unflatten (PyTreeSpec.node ty m es cs) []
          = Except.ok (PyObj.node ty m subtrees) := by
  have h0 : numLeavesList cs = 0 := by
    simpa [PyTreeSpec.num_leaves] using h
  obtain ⟨ts, hts⟩ := unflattenChildren_ok cs [] (by simp [h0])
  refine ⟨ts, hts, ?_⟩
  rw [PyTreeSpec.unflatten.eq_def]
  simp [PyTreeSpec.num_leaves, h0, is_leaf_node, hts]

theorem empty_internal_spec_unflatten_witness :
    ∃ subtrees, unflattenChildren [] [] = Except.ok subtrees
      ∧ PyTreeSpec.unflatten (PyTreeSpec.node 3 4 [] []) []
          = Except.ok (PyObj.node 3 4 subtrees) :=
  empty_internal_spec_unflatten 3 4 [] [] rfl

/-- C10: the canonical leaf spec carries no entries sequence, so entries()
and entry(i) fail on every leaf spec, while on every internal spec
entries() returns the ordered identifier list and entry(i) returns the
i-th position identifier for in-range i. -/
theorem entries_accessors :
    (PyTreeSpec.entries PyTreeSpec.leaf
        = Except.error "TypeError: NoneType object is not iterable")
      ∧ (∀ i : Nat, PyTreeSpec.entry PyTreeSpec.leaf i
        = Except.error "TypeError: NoneType object is not subscriptable")
      ∧ (∀ (ty m : Nat) (es : List Nat) (cs : List PyTreeSpec),
        PyTreeSpec.entries (PyTreeSpec.node ty m es cs) = Except.ok es)
      ∧ (∀ (ty m : Nat) (es : List Nat) (cs : List PyTreeSpec) (i : Nat)
          (h : i < es.length),
        PyTreeSpec.entry (PyTreeSpec.node ty m es cs) i
          = Except.ok (es.get ⟨i, h⟩)) := by
  refine ⟨rfl, fun _ => rfl, fun _ _ _ _ => rfl, ?_⟩
  intro ty m es cs i h
  simp [PyTreeSpec.entry, List.getElem?_eq_getElem h]

theorem entries_accessors_witness :
    PyTreeSpec.entry (PyTreeSpec.node 0 0 [5] []) 0 = Except.ok 5 := by
  have := entries_accessors.2.2.2 0 0 [5] [] 0 (by decide)
  simpa using this

end PytreePolyfill
